import Mathlib

/-!
Verification of the `pubMedArticleGrabber.py` acquisition pipeline
(repository `pubmed-articles-grabber`) against its natural-language
specification.  Every definition below is a shallow embedding of the
correspondingly named piece of `src/pubMedArticleGrabber.py`; external
services (Crossref, Entrez, HTTP transports) are modelled as oracle
parameters, and Python exceptions are modelled with `Option`/`Except`.
Python strings are Lean `String`s manipulated through their character
lists, and Python sets of strings are duplicate-free `List String`s
(iteration order over a Python set is unspecified; the embedding fixes
the list order).
-/

namespace PubMedGrabber

/-! ## Small Python-semantics helpers -/

/-- Python truthiness for an optional string: `None` and `''` are falsy. -/
def truthy : Option String → Bool
  | none => false
  | some s => !s.isEmpty

/-- Occurrence test for a character pattern inside a character list. -/
def containsSeq (pat : List Char) : List Char → Bool
  | [] => pat.isEmpty
  | c :: rest => pat.isPrefixOf (c :: rest) || containsSeq pat rest

/-- Python `sub in s` substring test. -/
def pyIn (sub s : String) : Bool :=
  containsSeq sub.data s.data

/-- The suffix strictly after the last occurrence of `pat` (`none` when
`pat` does not occur).  For the patterns used by the source (`'org/'`,
`'/'`, `'.'`), which cannot overlap themselves, this equals the last
element of Python's `split(pat)`. -/
def afterLastOcc (pat : List Char) : List Char → Option (List Char)
  | [] => none
  | c :: rest =>
    match afterLastOcc pat rest with
    | some t => some t
    | none =>
      if pat.isPrefixOf (c :: rest) then some ((c :: rest).drop pat.length)
      else none

/-- The prefix strictly before the first occurrence of `pat` (the whole
list when `pat` does not occur): Python's `split(pat)[0]`. -/
def beforeFirstOcc (pat : List Char) : List Char → List Char
  | [] => []
  | c :: rest =>
    if pat.isPrefixOf (c :: rest) && !pat.isEmpty then []
    else c :: beforeFirstOcc pat rest

/-- Python `str.lower()` for the ASCII identifiers this pipeline handles. -/
def pyLower (s : String) : String :=
  String.mk (s.data.map Char.toLower)

/-- `extractDOI` from the source: `doiLinkOrTag.split('org/')[-1]`. -/
def extractDOI (doiLinkOrTag : String) : String :=
  match afterLastOcc "org/".data doiLinkOrTag.data with
  | some t => String.mk t
  | none => doiLinkOrTag

/-! ## Python string sets as duplicate-free lists -/

/-- Set difference `a - b` on list-modelled sets. -/
def pySetDiff (a b : List String) : List String :=
  a.filter (fun x => decide (x ∉ b))

/-- A set comprehension `{f i for i in a}` on list-modelled sets. -/
def pySetImage (f : String → String) (a : List String) : List String :=
  (a.map f).dedup

/-- Python `set.add`. -/
def pyInsert (x : String) (s : List String) : List String :=
  if x ∈ s then s else s ++ [x]

/-! ## Download dedup step (`downloadViaRequests` lines 625-639 and
`downloadViaUrlLib` lines 672-686)

Both download paths measure the fetched content (`sys.getsizeof`), read the
size of the already existing file for `(doi, ext)` (0 when absent), and
overwrite only when `contentSize - 33 > fileSize`.  The file is a list of
bytes; `contentSize` is the measured size, kept abstract as an `Int`
(CPython's `getsizeof` of a `bytes` object is its length plus a 33-byte
object header on 64-bit builds). -/

/-- The write-or-keep decision of `downloadViaRequests`:
`if contentSize-33 > fileSize: open(fileName,'wb').write(content)`. -/
def downloadViaRequestsWrite (contentSize : Int) (content : List Nat)
    (existing : Option (List Nat)) : Option (List Nat) :=
  let fileSize : Int := match existing with
    | none => 0
    | some c => (c.length : Int)
  if contentSize - 33 > fileSize then some content else existing

/-- The identical write-or-keep decision of `downloadViaUrlLib`. -/
def downloadViaUrlLibWrite (contentSize : Int) (content : List Nat)
    (existing : Option (List Nat)) : Option (List Nat) :=
  let fileSize : Int := match existing with
    | none => 0
    | some c => (c.length : Int)
  if contentSize - 33 > fileSize then some content else existing

/-! ## Registry files (`writecsvRow`, `addToDict`, `csvTodict`)

A registry file is a list of `(key, value)` rows (header handling of
`checkHeaders` concerns only a missing file and is irrelevant for an
existing registry).  `writecsvRow` opens the file in append mode and writes
the row unconditionally.  Reading a registry back with `csvTodict` folds
the rows into a `defaultdict(set)` via `addToDict`. -/

/-- `writecsvRow` on an existing registry file: the row is appended. -/
def writecsvRow (rows : List (String × String)) (row : String × String) :
    List (String × String) :=
  rows ++ [row]

/-- `addToDict(mydict, k, v)`: `d[k] |= {v}` on a `defaultdict(set)`. -/
def addToDict (d : String → Finset String) (k v : String) :
    String → Finset String :=
  fun x => if x = k then d x ∪ {v} else d x

/-- `csvTodict`: fold all rows of the file into a set-valued mapping. -/
def csvTodict (rows : List (String × String)) : String → Finset String :=
  rows.foldl (fun d kv => addToDict d kv.1 kv.2) (fun _ => ∅)

/-! ## The Crossref DOI-resolution loop of `grabViaCrossref` (lines 87-116)

`cr.works(ids=doi)` is a remote call; it is modelled by an oracle mapping a
pass number and a DOI to a `QueryResult`.  `QueryResult.caught msg` is an
exception of one of the classes named in the `except` clause at line 109,
carrying `str(e)`; `QueryResult.uncaught` is any other exception (e.g. a
`NameError`), which the loop does not catch. -/

/-- A Crossref `works` record, reduced to the only field the loop reads:
`article['message']['DOI']`. -/
structure Article where
  msgDOI : String
deriving DecidableEq, Repr

/-- Outcome of one `cr.works(ids=doi)` call. -/
inductive QueryResult where
  | ok (a : Article)
  | caught (msg : String)
  | uncaught
deriving DecidableEq, Repr

/-- Lines 90-94: `collecteddois`, the normalized DOIs of collected articles. -/
def collectedOf (articles : List Article) : List String :=
  pySetImage (fun i => pyLower (extractDOI i)) (articles.map (·.msgDOI))

/-- Lines 94 and 115: normalization applied to the not-found set. -/
def normalizeSet (s : List String) : List String :=
  pySetImage (fun i => pyLower (extractDOI i)) s

/-- Line 96-97: `dois = {i.lower() for i in dois} - notFounddois - collecteddois`
(with `notFounddois` already replaced by its normalized image). -/
def computeRemaining (dois notFound : List String) (articles : List Article) :
    List String :=
  pySetDiff (pySetDiff (pySetImage pyLower dois) (normalizeSet notFound))
    (collectedOf articles)

/-- The inner `for doi in dois:` loop, lines 106-114.  Each DOI is queried
once; a success appends the article, a caught exception whose text contains
`'Not Found'` adds the DOI to the not-found set, and every other exception
propagates (`raise e`), modelled by `none`. -/
def processPass (query : String → QueryResult) (articles : List Article)
    (notFound : List String) : List String →
    Option (List Article × List String)
  | [] => some (articles, notFound)
  | d :: rest =>
    match query d with
    | .ok a => processPass query (articles ++ [a]) notFound rest
    | .caught msg =>
      if pyIn "Not Found" msg then
        processPass query articles (pyInsert d notFound) rest
      else
        none
    | .uncaught => none

/-- Result of the `while(dois):` loop of lines 87-114. -/
inductive LoopOutcome where
  | finished (articles : List Article) (notFound : List String)
  | stalled (remaining : Nat) (articles : List Article) (notFound : List String)
  | raised
  | fuelOut (articles : List Article) (notFound : List String) (dois : List String)
deriving DecidableEq, Repr

/-- The `while(dois):` loop of lines 87-114, with explicit fuel (the loop can
run forever) and a ghost trace recording the size `len(dois)` computed at
line 97 on each iteration.  Faithful details: `lenOfIn` is assigned only when
`firstTime` holds (lines 98-100) and is never updated afterwards; the break
of lines 101-103 yields `stalled` with the count that is printed; the pass
processes the freshly recomputed remaining set. -/
def runLoop (query : Nat → String → QueryResult) :
    Nat → Nat → Bool → Nat → List Article → List String → List String →
    LoopOutcome × List Nat
  | 0, _, _, _, articles, notFound, dois =>
    (.fuelOut articles notFound dois, [])
  | fuel + 1, pass, firstTime, lenOfIn, articles, notFound, dois =>
    if dois.isEmpty then
      (.finished articles notFound, [])
    else
      let notFound' := normalizeSet notFound
      let dois' := computeRemaining dois notFound articles
      let s := dois'.length
      if firstTime then
        match processPass (query pass) articles notFound' dois' with
        | none => (.raised, [s])
        | some (a2, nf2) =>
          let r := runLoop query fuel (pass + 1) false s a2 nf2 dois'
          (r.1, s :: r.2)
      else if s = lenOfIn then
        (.stalled s articles notFound', [s])
      else
        match processPass (query pass) articles notFound' dois' with
        | none => (.raised, [s])
        | some (a2, nf2) =>
          let r := runLoop query fuel (pass + 1) false lenOfIn a2 nf2 dois'
          (r.1, s :: r.2)

/-- Discriminator: did the loop exit through the stall break of line 103? -/
def isStalled : LoopOutcome → Bool
  | .stalled _ _ _ => true
  | _ => false

/-! ## Python name resolution for `cr` (claim about `__init__` line 53 and
`grabViaCrossref` line 108)

`__init__` executes `cr = Crossref(mailto=email)`, binding `cr` as a local
of `__init__`; the only attribute stored on the instance is `self.pmids`.
Inside `grabViaCrossref`, `cr.works(ids=doi)` resolves `cr` through the
local scope of `grabViaCrossref`, then the module globals, then builtins. -/

/-- Scope in which a Python name was found. -/
inductive NameScope where
  | localScope
  | globalScope
deriving DecidableEq, Repr

/-- Names bound in the body of `grabViaCrossref` (assignments, `for`
targets, `with ... as`, `except ... as`) plus its parameter, which Python
treats as its local variables. -/
def grabViaCrossrefLocals : List String :=
  ["self", "dois", "f", "articles", "notFounddois", "firstTime",
   "collecteddois", "article", "lenOfIn", "doi", "e", "temparticles",
   "seendois", "articlesURLs", "doisWithNoLink", "links", "urls",
   "downloadabledois", "downloadableURLs", "badURLs", "h", "url_type",
   "url", "crContentType", "lenOfOut", "badArticles", "index", "row"]

/-- Names bound at module level of `pubMedArticleGrabber.py` (imports and
the class statement).  `cr` is not a Python builtin either. -/
def pubMedModuleGlobals : List String :=
  ["ET", "os", "sys", "time", "pickle", "re", "csv", "unicodecsv", "pd",
   "requests", "urlopen", "Request", "URLError", "HTTPError",
   "CertificateError", "defaultdict", "Entrez", "Crossref",
   "PubMedArticleGrabber"]

/-- Parameters and names assigned in the body of `__init__` (line 51-53):
`self.pmids = ...` binds the attribute, `Entrez.email = ...` binds an
attribute of the `Entrez` module, and `cr = Crossref(mailto=email)` binds
the local `cr`. -/
def initLocals : List String :=
  ["self", "pmidsListOrCSVfile", "email", "cr"]

/-- Instance attributes assigned by `__init__`: only `self.pmids`. -/
def initInstanceAttrs : List String :=
  ["pmids"]

/-- Resolution of a name appearing in the body of `grabViaCrossref`. -/
def resolveInGrabViaCrossref (n : String) : Option NameScope :=
  if n ∈ grabViaCrossrefLocals then some .localScope
  else if n ∈ pubMedModuleGlobals then some .globalScope
  else none

/-- The call `cr.works(ids=doi)` at line 108: when `cr` does not resolve,
Python raises `NameError`, which is not among the exception classes caught
at line 109, so the loop sees an uncaught exception.  (Were the name bound,
the call would reach the Crossref client.) -/
def crWorksCall (doi : String) : QueryResult :=
  match resolveInGrabViaCrossref "cr" with
  | none => .uncaught
  | some _ => .ok ⟨doi⟩

/-! ## `pmidTopmcid` (lines 254-272)

`Entrez.elink` returns a result whose first element carries a list
`LinkSetDb` of link sets, each with a list `Link` of links, each with a
string `Id`.  The source branches on `len(result[0]['LinkSetDb'])`:
- `== 1`: `pmcid = result[0]['LinkSetDb'][0]['Link'][0]['Id']`
- empty: `pmcid = 'NoPMCID'`
- otherwise: `pmcid = result[0]['LinkSetDb'][0]['Link'][0]['Id'][0]`
  followed by `pmcid += 'MoreThanPMCID'` — note the trailing `[0]`, which
  indexes into the `Id` string and yields its first character.
`none` models an `IndexError` on an empty `Link` list or empty `Id`. -/

/-- One link of an elink link set: the `Id` field read by the source. -/
structure ELink where
  Id : String
deriving DecidableEq, Repr

/-- One link set of an elink result. -/
structure ELinkSetDb where
  Link : List ELink
deriving DecidableEq, Repr

/-- The first element of an `Entrez.read(handle)` elink result. -/
structure ELinkResult where
  LinkSetDb : List ELinkSetDb
deriving DecidableEq, Repr

/-- The PMCID recorded by `pmidTopmcid` for one elink result. -/
def pmidTopmcidRecord (result : ELinkResult) : Option String :=
  if result.LinkSetDb.length = 1 then
    (result.LinkSetDb.head?.bind (fun s => s.Link.head?)).map (·.Id)
  else if result.LinkSetDb.isEmpty then
    some "NoPMCID"
  else
    match result.LinkSetDb.head?.bind (fun s => s.Link.head?) with
    | none => none
    | some l =>
      match l.Id.data.head? with
      | none => none
      | some c => some (String.mk [c] ++ "MoreThanPMCID")

/-! ## The content classifier (`getExtension` lines 459-464,
`decideExtension` lines 466-509)

`getExtension` is `re.findall('.+\.([a-zA-Z]{3,10})"?$', s)[-1]` (or
`None`): after stripping at most one trailing double quote, the string must
contain a dot whose suffix is 3-10 ASCII letters with at least one
character before that dot; the captured group is that suffix. -/

/-- `getExtension` from the source. -/
def getExtension (filePathOrURL : String) : Option String :=
  let s := filePathOrURL.data
  let s' := if s.getLast? = some '"' then s.dropLast else s
  match afterLastOcc ['.'] s' with
  | none => none
  | some b =>
    if s'.length ≥ b.length + 2 && b.all Char.isAlpha &&
        3 ≤ b.length && b.length ≤ 10 then
      some (String.mk b)
    else none

/-- `contentType.split('/')[-1].split(';')[0]`. -/
def mediaSubtype (s : String) : String :=
  let afterSlash := match afterLastOcc ['/'] s.data with
    | some t => t
    | none => s.data
  String.mk (beforeFirstOcc [';'] afterSlash)

/-- The one Python error `decideExtension` can raise: `'api.elsevier' in
url` (line 500) and `re.findall(..., url)` (line 493) both raise
`TypeError` when `url` is `None`. -/
inductive PyErr where
  | typeError
deriving DecidableEq, Repr

deriving instance DecidableEq for Except

/-- `decideExtension` from the source.  The four dictionary entries are
`none` when the key is missing (the `except KeyError` defaults of lines
467-482).  The precedence chain is lines 484-498 and the override chain is
lines 500-507. -/
def decideExtension (contentType crContentType contentDisposition url :
    Option String) : Except PyErr (Option String) :=
  let extStep : Except PyErr (Option String) :=
    if truthy contentType then
      .ok (some (mediaSubtype (contentType.getD "")))
    else if truthy crContentType && !(crContentType.getD "" == "unspecified") then
      .ok (some (mediaSubtype (crContentType.getD "")))
    else if truthy contentDisposition then
      .ok (getExtension (contentDisposition.getD ""))
    else
      match url with
      | none => .error .typeError
      | some u => .ok (getExtension u)
  match extStep with
  | .error e => .error e
  | .ok ext =>
    match url with
    | none => .error .typeError
    | some u =>
      .ok (if pyIn "api.elsevier" u &&
              (ext == some "plain" || ext == some "htm" || ext == some "html") then
            some "txt"
          else if ext == some "plain" || ext == some "htm" then
            some "html"
          else if ext == some "msword" then
            some "doc"
          else if ext == some "octet-stream" then
            some "pdf"
          else ext)

/-- The classifier as the specification words it, for comparison with
`decideExtension`: precedence declared content-type, then vendor
content-type if not `"unspecified"`, then a filename hint in the
content-disposition header when one is supplied, then a filename hint in
the URL, else none; then the overrides applied in order. -/
def specClassify (contentType crContentType contentDisposition :
    Option String) (url : String) : Option String :=
  let base : Option String :=
    if truthy contentType then
      some (mediaSubtype (contentType.getD ""))
    else if truthy crContentType && !(crContentType.getD "" == "unspecified") then
      some (mediaSubtype (crContentType.getD ""))
    else if truthy contentDisposition then
      getExtension (contentDisposition.getD "")
    else
      getExtension url
  if pyIn "api.elsevier" url &&
      (base == some "plain" || base == some "htm" || base == some "html") then
    some "txt"
  else if base == some "plain" || base == some "htm" then
    some "html"
  else if base == some "msword" then
    some "doc"
  else if base == some "octet-stream" then
    some "pdf"
  else
    base

/-! ## `getCambridgeURL` (lines 573-576)

`re.findall('10.1017/s(.+)', doi)[-1]` captures everything after the first
occurrence of the pattern `10.1017/s` (the third character of the regex is
the wildcard `.`), provided at least one character follows; `none` models
the `IndexError` of `[-1]` when there is no match. -/

/-- The capture of `re.findall('10.1017/s(.+)', ...)`: the remainder after
the first position matching `1 0 ⬝ 1 0 1 7 / s` with a nonempty tail. -/
def camTail : List Char → Option (List Char)
  | '1' :: '0' :: _ :: '1' :: '0' :: '1' :: '7' :: '/' :: 's' :: c :: rest =>
    some (c :: rest)
  | _ :: rest => camTail rest
  | [] => none

/-- `getCambridgeURL` from the source. -/
def getCambridgeURL (doi : String) : Option String :=
  (camTail doi.data).map
    (fun t =>
      "https://www.cambridge.org/core/services/aop-cambridge-core/content/view/S"
        ++ String.mk t)

/-! ## The per-identifier body of `pmidTodoi` (lines 408-445)

`Entrez.esummary` either returns a fresh handle for the queried PMID or
raises `URLError`; in that case the source sleeps 60 seconds and continues
to `Entrez.read(summaryHandle)` without re-issuing the query, so
`summaryHandle` still holds the handle of the previous iteration (or is
unbound on the first, an uncaught `UnboundLocalError`, modelled `none`).
`Entrez.read` is modelled as a pure lookup from the pmid a handle was
created for to its summary record; the record is modelled with its `DOI`
field present and nonempty, so `pmidEntrezSummaryRecordTodoi` returns that
field (its first probe, lines 344-348) and line 422 stores
`extractDOI(doi).lower()`. -/

/-- Outcome of one `Entrez.esummary(db='pubmed', id=pmid)` call. -/
inductive EsummaryOutcome where
  | ok
  | urlError
deriving DecidableEq, Repr

/-- The for-loop of lines 408-433 restricted to records whose `DOI` field
is present: `outcome` is the esummary oracle, `doiOf` gives the `DOI` field
of the summary record belonging to the handle's queried pmid, `handle` is
the current value of the local `summaryHandle`, and `slept` accumulates the
`time.sleep(60)` back-off seconds.  Returns the `(pmid, doi)` mapping built
in `pmid_doi` (and the total sleep), or `none` when the run dies on an
unbound `summaryHandle`. -/
def pmidTodoiLoop (outcome : String → EsummaryOutcome) (doiOf : String → String) :
    List String → Option String → List (String × String) → Nat →
    Option (List (String × String) × Nat)
  | [], _, acc, slept => some (acc, slept)
  | pmid :: rest, handle, acc, slept =>
    let step : Option String × Nat :=
      match outcome pmid with
      | .ok => (some pmid, slept)
      | .urlError => (handle, slept + 60)
    match step.1 with
    | none => none
    | some queried =>
      let doi := pyLower (extractDOI (doiOf queried))
      pmidTodoiLoop outcome doiOf rest step.1 (acc ++ [(pmid, doi)]) step.2

/-! ## File-state slice of `grabViaCrossref` (lines 61-150)

State visible to the resolution phase: the requested DOI set (column `DOI`
of `dois.csv`), the pickled `articles` list, and the rows of the not-found
registry `'full text/doi/dois notFoundin crossRef.csv'`.  A run reads the
registry as a set (line 81), executes the `while(dois)` loop, removes
duplicate articles (lines 119-126), and appends the whole normalized
not-found set back to the registry file (lines 115-116, `listTocsvRows`
opens the file in append mode). -/

/-- Files read and written by the resolution phase. -/
structure CrState where
  doisCsv : List String
  articles : List Article
  notFoundRows : List String
deriving DecidableEq, Repr

/-- `set(csvTolist(fileName))` for a single-column registry file, as read
at line 81.  `csvTolist` (lines 705-717) drops empty cells, turns each
one-cell row into its bare string, and — when exactly one row remains —
collapses the list to that single string (`cells = cells[0]`), so `set`
then yields the set of the string's characters.  With zero or at least two
rows, the result is the set of the row strings. -/
def csvTolistSet (rows : List String) : List String :=
  match rows.filter (fun r => !r.isEmpty) with
  | [r] => (r.data.map (fun c => String.mk [c])).dedup
  | cells => cells.dedup

/-- Lines 119-126: drop later duplicates of `article['message']['DOI']`. -/
def dedupArticles (l : List Article) : List Article :=
  (l.foldl
    (fun (acc : List Article × List String) a =>
      if a.msgDOI ∈ acc.2 then acc else (acc.1 ++ [a], acc.2 ++ [a.msgDOI]))
    ([], [])).1

/-- One run of the resolution phase of `grabViaCrossref` over the file
state, `none` when the loop raised or ran out of fuel.  The not-found
registry is read through `set(csvTolist(...))` (line 81, including the
single-row collapse of `csvTolist`); the requested DOIs are read through
pandas (`set(pd.read_csv(...)['DOI'])`, lines 69-70), which has no such
collapse. -/
def grabViaCrossrefResolve (query : Nat → String → QueryResult) (fuel : Nat)
    (st : CrState) : Option CrState :=
  match (runLoop query fuel 0 true 0 st.articles (csvTolistSet st.notFoundRows)
      st.doisCsv.dedup).1 with
  | .finished a nf =>
    some ⟨st.doisCsv, dedupArticles a, st.notFoundRows ++ normalizeSet nf⟩
  | .stalled _ a nf =>
    some ⟨st.doisCsv, dedupArticles a, st.notFoundRows ++ normalizeSet nf⟩
  | _ => none

/-! ## Concrete oracles used by counterexamples and witnesses -/

/-- A Crossref oracle under which every query succeeds but the DOI `"b"`
resolves to a record whose canonical `message.DOI` is `"z"`, so `"b"` never
enters `collecteddois` and remains pending on every pass. -/
def cxQuery (_pass : Nat) (d : String) : QueryResult :=
  if d = "a" then .ok ⟨"a"⟩ else .ok ⟨"z"⟩

/-- A Crossref oracle raising a caught not-found error for `"10.1/nf"` and a
caught transient error for every other DOI. -/
def nfQuery (d : String) : QueryResult :=
  if d = "10.1/nf" then .caught "HTTP Error 404: Not Found"
  else .caught "connection timed out"

/-- An esummary oracle for which only the pmid `"B"` hits a server timeout. -/
def toOutcome (pmid : String) : EsummaryOutcome :=
  if pmid = "B" then .urlError else .ok

/-- Summary records whose `DOI` field is `"10.5/"` plus the queried pmid. -/
def toDoiOf (pmid : String) : String :=
  "10.5/" ++ pmid

/-! # Helper lemmas -/

/-- Membership in the list-modelled set difference. -/
theorem mem_pySetDiff (x : String) (a b : List String) :
    x ∈ pySetDiff a b ↔ x ∈ a ∧ x ∉ b := by
  simp [pySetDiff, List.mem_filter]

/-- Membership in the list-modelled set comprehension. -/
theorem mem_pySetImage (f : String → String) (a : List String) (y : String) :
    y ∈ pySetImage f a ↔ ∃ x ∈ a, f x = y := by
  simp [pySetImage, List.mem_dedup, List.mem_map]

/-- Membership after `set.add`. -/
theorem mem_pyInsert (x y : String) (s : List String) :
    x ∈ pyInsert y s ↔ x = y ∨ x ∈ s := by
  unfold pyInsert
  split
  · next hy =>
    constructor
    · exact Or.inr
    · rintro (rfl | hx)
      · exact hy
      · exact hx
  · simp [List.mem_append, or_comm]

/-- Appending one row to a registry folds into one `addToDict` step. -/
theorem csvTodict_append_single (rows : List (String × String))
    (r : String × String) :
    csvTodict (rows ++ [r]) = addToDict (csvTodict rows) r.1 r.2 := by
  simp [csvTodict, List.foldl_append]

/-- The fold of `csvTodict` only grows the value sets. -/
theorem mem_foldl_addToDict (rows : List (String × String))
    (d : String → Finset String) (k v : String) (h : v ∈ d k) :
    v ∈ (rows.foldl (fun d kv => addToDict d kv.1 kv.2) d) k := by
  induction rows generalizing d with
  | nil => exact h
  | cons hd tl ih =>
    apply ih
    simp only [addToDict]
    by_cases hk : k = hd.1
    · rw [if_pos hk]
      exact Finset.mem_union_left _ h
    · rw [if_neg hk]
      exact h

/-- Every recorded pair is present in the mapping read back. -/
theorem mem_foldl_addToDict_self :
    ∀ (rows : List (String × String)) (r : String × String), r ∈ rows →
    ∀ d : String → Finset String,
      r.2 ∈ (rows.foldl (fun d kv => addToDict d kv.1 kv.2) d) r.1 := by
  intro rows
  induction rows with
  | nil =>
    intro r h
    cases h
  | cons hd tl ih =>
    intro r h d
    rcases List.mem_cons.mp h with hh | hh
    · subst hh
      rw [List.foldl_cons]
      apply mem_foldl_addToDict
      simp [addToDict]
    · exact ih r hh _

/-- Every recorded pair is present in `csvTodict` of its registry. -/
theorem mem_csvTodict_self (rows : List (String × String))
    (r : String × String) (h : r ∈ rows) : r.2 ∈ csvTodict rows r.1 :=
  mem_foldl_addToDict_self rows r h _

/-- Deduplication does not change the set of elements of a list. -/
theorem toFinset_dedup_eq (l : List String) : l.dedup.toFinset = l.toFinset := by
  ext x
  simp [List.mem_toFinset, List.mem_dedup]

/-- With zero or at least two nonempty rows, the `csvTolist` single-row
collapse does not fire and the registry reads back as the set of its rows. -/
theorem csvTolistSet_no_collapse (rows : List String)
    (hone : (rows.filter (fun r => !r.isEmpty)).length ≠ 1) :
    csvTolistSet rows = (rows.filter (fun r => !r.isEmpty)).dedup := by
  unfold csvTolistSet
  rcases h : rows.filter (fun r => !r.isEmpty) with _ | ⟨a, _ | ⟨b, l⟩⟩
  · simp [h]
  · exact absurd (by rw [h] ; rfl) hone
  · simp [h]

/-- With zero or at least two nonempty rows, every element the registry
reads back is one of its recorded rows. -/
theorem csvTolistSet_toFinset_subset (rows : List String)
    (hone : (rows.filter (fun r => !r.isEmpty)).length ≠ 1) :
    (csvTolistSet rows).toFinset ⊆ rows.toFinset := by
  rw [csvTolistSet_no_collapse rows hone, toFinset_dedup_eq]
  intro x hx
  rw [List.mem_toFinset] at hx ⊢
  exact (List.mem_filter.mp hx).1

/-- When every requested DOI is already recorded (collected or not-found),
the resolution phase performs no query (the oracle is irrelevant) and ends
by re-appending the whole normalized not-found read-back set to the
registry file. -/
theorem grabResolve_when_all_recorded (query : Nat → String → QueryResult)
    (fuel : Nat) (st : CrState)
    (hdone : computeRemaining st.doisCsv.dedup (csvTolistSet st.notFoundRows)
      st.articles = [])
    (hnorm : normalizeSet (csvTolistSet st.notFoundRows) =
      csvTolistSet st.notFoundRows) :
    grabViaCrossrefResolve query (fuel + 2) st =
      some ⟨st.doisCsv, dedupArticles st.articles,
        st.notFoundRows ++ csvTolistSet st.notFoundRows⟩ := by
  unfold grabViaCrossrefResolve
  by_cases hd : st.doisCsv.dedup.isEmpty
  · simp [runLoop, hd, hnorm]
  · have hd' : st.doisCsv.dedup.isEmpty = false := by
      simpa using hd
    simp [runLoop, hd', hdone, hnorm, processPass]

/-! # Theorems -/

/-- **C1, counterexample.**  The claim states that whenever two consecutive
passes of the DOI-resolution loop compute a remaining set of identical
nonempty size, the loop terminates at the next size comparison.  Refuted:
under `cxQuery`, starting from the requested set `{"a", "b"}`, the sizes
computed at line 97 on successive passes are 2, 1, 1, 1 — passes two and
three already yield the identical nonempty size 1, yet the loop performs a
fourth comparison without stalling (it iterates forever; with fuel 4 it is
still running).  The stall break compares against `lenOfIn`, which is set
on the first pass only and never updated. -/
theorem grabViaCrossref_consecutive_stall_refuted :
    (runLoop cxQuery 4 0 true 0 [] [] ["a", "b"]).2 = [2, 1, 1, 1] ∧
    isStalled (runLoop cxQuery 4 0 true 0 [] [] ["a", "b"]).1 = false := by
  decide

/-- **C1, amended.**  If a pass after the first computes a remaining set
whose size equals the size recorded on the *first* pass (`lenOfIn`, never
updated afterwards), the loop terminates at that size comparison with the
`stalled` outcome reporting that count. -/
theorem grabViaCrossref_stalls_at_first_pass_size
    (query : Nat → String → QueryResult) (fuel pass lenOfIn : Nat)
    (articles : List Article) (notFound dois : List String)
    (hne : dois.isEmpty = false)
    (hcard : (computeRemaining dois notFound articles).length = lenOfIn) :
    runLoop query (fuel + 1) pass false lenOfIn articles notFound dois =
      (.stalled lenOfIn articles (normalizeSet notFound), [lenOfIn]) := by
  simp [runLoop, hne, hcard]

/-- **C1, amended, witness.**  A concrete non-first pass whose remaining
size 1 equals the recorded first-pass size stalls at once. -/
theorem grabViaCrossref_stalls_at_first_pass_size_witness :
    runLoop cxQuery 1 1 false 1 [] [] ["a"] = (.stalled 1 [] [], [1]) := by
  rw [grabViaCrossref_stalls_at_first_pass_size cxQuery 0 1 1 [] [] ["a"]
    (by decide) (by decide)]
  decide

/-- **C2.**  The Crossref client is bound to the local `cr` of `__init__`
and is not stored as an instance attribute; `cr` is neither a local of
`grabViaCrossref` nor a module global, so the query step resolves `cr` to
nothing (a `NameError`, not among the caught exception classes) and any
pass over a non-empty pending DOI list raises. -/
theorem crossref_client_never_bound :
    "cr" ∈ initLocals ∧ "cr" ∉ initInstanceAttrs ∧
    resolveInGrabViaCrossref "cr" = none ∧
    ∀ (articles : List Article) (notFound : List String) (d : String)
      (rest : List String),
      processPass crWorksCall articles notFound (d :: rest) = none := by
  refine ⟨by decide, by decide, by decide, ?_⟩
  intro articles notFound d rest
  simp [processPass, crWorksCall,
    show resolveInGrabViaCrossref "cr" = none by decide]

/-- **C3.**  Evaluation of the `pmidTopmcid` branches: zero link sets give
the sentinel `'NoPMCID'`; exactly one link set gives the full linked
identifier; but with more than one link set the code records only the
*first character* of the first linked identifier (the stray `[0]` at line
265 indexes into the `Id` string) followed by `'MoreThanPMCID'`, not the
whole identifier as the claim states. -/
theorem pmidTopmcid_first_character_bug :
    pmidTopmcidRecord ⟨[]⟩ = some "NoPMCID" ∧
    pmidTopmcidRecord ⟨[⟨[⟨"7654321"⟩]⟩]⟩ = some "7654321" ∧
    pmidTopmcidRecord ⟨[⟨[⟨"7654321"⟩]⟩, ⟨[⟨"999"⟩]⟩]⟩ =
      some "7MoreThanPMCID" ∧
    pmidTopmcidRecord ⟨[⟨[⟨"7654321"⟩]⟩, ⟨[⟨"999"⟩]⟩]⟩ ≠
      some "7654321MoreThanPMCID" := by
  decide

/-- **C9.**  On a `URLError` for pmid `"B"` (after a successful pmid
`"A"`), the loop adds 60 seconds of back-off sleep but never re-issues the
query: it reads the stale handle of `"A"` and records `"B" ↦ doi-of-"A"`.
On a `URLError` for the very first identifier, `summaryHandle` is unbound
and the run dies.  The identifier is never retried in place, contrary to
the claim. -/
theorem pmidTodoi_stale_handle_after_timeout :
    pmidTodoiLoop toOutcome toDoiOf ["A", "B"] none [] 0 =
      some ([("A", "10.5/a"), ("B", "10.5/a")], 60) ∧
    pmidTodoiLoop toOutcome toDoiOf ["B"] none [] 0 = none := by
  decide

/-- **C10.**  A DOI beginning with the Cambridge identifier pattern
`10.1017/s` followed by a nonempty tail is mapped to the fixed canonical
content-viewer URL template with the tail appended after the restored
upper-case `'S'`. -/
theorem getCambridgeURL_canonical_template (tail : String) (h : tail ≠ "") :
    getCambridgeURL ("10.1017/s" ++ tail) =
      some
        ("https://www.cambridge.org/core/services/aop-cambridge-core/content/view/S"
          ++ tail) := by
  obtain ⟨c, rest, hdata⟩ : ∃ c rest, tail.data = c :: rest := by
    cases hd : tail.data with
    | nil =>
      exfalso
      apply h
      cases tail with
      | mk d => simp only at hd; subst hd; rfl
    | cons c rest => exact ⟨c, rest, rfl⟩
  unfold getCambridgeURL
  rw [String.data_append, hdata]
  show (camTail
    ('1' :: '0' :: '.' :: '1' :: '0' :: '1' :: '7' :: '/' :: 's' :: c :: rest)).map _
      = _
  rw [camTail]
  show some _ = some _
  congr 1
  cases tail with
  | mk d =>
    simp only at hdata
    subst hdata
    rfl

/-- **C10, witness.**  The claim's own example: `"10.1017/sABCDEF"` maps to
the canonical viewer URL ending in `SABCDEF`. -/
theorem getCambridgeURL_canonical_template_witness :
    getCambridgeURL "10.1017/sABCDEF" =
      some
        "https://www.cambridge.org/core/services/aop-cambridge-core/content/view/SABCDEF" := by
  have h := getCambridgeURL_canonical_template "ABCDEF" (by decide)
  exact h

/-- **C4, counterexample.**  The claim quantifies over every input
dictionary and in particular asserts that
`{contentDisposition: 'attachment; filename="x.doc"'}` with no content type
yields `'doc'`.  Refuted: with no `url` entry the unconditional
`'api.elsevier' in url` test of line 500 applies `in` to `None` and raises
`TypeError`, so `decideExtension` returns nothing at all on that very
dictionary. -/
theorem decideExtension_without_url_raises :
    decideExtension none none (some "attachment; filename=\"x.doc\"") none =
      .error .typeError ∧
    decideExtension none none (some "attachment; filename=\"x.doc\"") none ≠
      .ok (some "doc") := by
  decide

/-- **C4, amended.**  For every input dictionary that supplies a `url`,
`decideExtension` returns exactly the extension chosen by the stated
precedence followed by the post-processing overrides in order
(`specClassify`); and the claim's example, once a url is supplied, returns
`'doc'`. -/
theorem decideExtension_matches_spec_classifier :
    (∀ (contentType crContentType contentDisposition : Option String)
      (u : String),
      decideExtension contentType crContentType contentDisposition (some u) =
        .ok (specClassify contentType crContentType contentDisposition u)) ∧
    decideExtension none none (some "attachment; filename=\"x.doc\"")
      (some "https://static.cambridge.org/fulltext") = .ok (some "doc") := by
  constructor
  · intro ct cr cd u
    by_cases h1 : truthy ct = true
    · simp [decideExtension, specClassify, h1]
    · by_cases h2 : (truthy cr && !(cr.getD "" == "unspecified")) = true
      · simp [decideExtension, specClassify, h1, h2]
      · by_cases h3 : truthy cd = true
        · simp [decideExtension, specClassify, h1, h2, h3]
        · simp [decideExtension, specClassify, h1, h2, h3]
  · decide

/-- **C5.**  In both download paths, when a file of size `N` already exists
for `(doi, ext)`: if the measured incoming size minus the fixed overhead 33
is not strictly greater than `N`, the existing bytes are left unchanged;
the file is overwritten only when the measured size minus 33 strictly
exceeds `N`; in particular a re-fetch of at most `N - 33` bytes (whose
CPython `getsizeof` measurement is its length plus 33) never clobbers the
file. -/
theorem download_overwrite_guard (contentSize : Int)
    (content existing : List Nat) :
    (¬ ((existing.length : Int) < contentSize - 33) →
      downloadViaRequestsWrite contentSize content (some existing) =
        some existing ∧
      downloadViaUrlLibWrite contentSize content (some existing) =
        some existing) ∧
    (downloadViaRequestsWrite contentSize content (some existing) ≠
        some existing →
      (existing.length : Int) < contentSize - 33) ∧
    (downloadViaUrlLibWrite contentSize content (some existing) ≠
        some existing →
      (existing.length : Int) < contentSize - 33) ∧
    ((content.length : Int) ≤ (existing.length : Int) - 33 →
      downloadViaRequestsWrite ((content.length : Int) + 33) content
        (some existing) = some existing ∧
      downloadViaUrlLibWrite ((content.length : Int) + 33) content
        (some existing) = some existing) := by
  refine ⟨?_, ?_, ?_, ?_⟩
  · intro h
    simp only [downloadViaRequestsWrite, downloadViaUrlLibWrite]
    rw [if_neg h]
    exact ⟨rfl, rfl⟩
  · intro hne
    by_contra h
    apply hne
    simp only [downloadViaRequestsWrite]
    rw [if_neg h]
  · intro hne
    by_contra h
    apply hne
    simp only [downloadViaUrlLibWrite]
    rw [if_neg h]
  · intro h
    have h' : ¬ ((existing.length : Int) < (content.length : Int) + 33 - 33) := by
      omega
    simp only [downloadViaRequestsWrite, downloadViaUrlLibWrite]
    rw [if_neg h']
    exact ⟨rfl, rfl⟩

/-- **C5, witness.**  A 10-byte file survives a re-fetch measured at 40
(net 7 bytes): both download paths keep the existing bytes. -/
theorem download_overwrite_guard_witness :
    downloadViaRequestsWrite 40 [1, 2] (some [0, 0, 0, 0, 0, 0, 0, 0, 0, 0]) =
      some [0, 0, 0, 0, 0, 0, 0, 0, 0, 0] ∧
    downloadViaUrlLibWrite 40 [1, 2] (some [0, 0, 0, 0, 0, 0, 0, 0, 0, 0]) =
      some [0, 0, 0, 0, 0, 0, 0, 0, 0, 0] :=
  (download_overwrite_guard 40 [1, 2] [0, 0, 0, 0, 0, 0, 0, 0, 0, 0]).1
    (by decide)

/-- **C6, counterexample.**  The claim states that re-inserting an
already-recorded `(key, value)` pair leaves the registry's contents
unchanged with no duplicate rows.  Refuted: `writecsvRow` appends
unconditionally, so the registry file gains a duplicate physical row. -/
theorem writecsvRow_duplicate_appends_row :
    writecsvRow [("10.1/x", "http://u")] ("10.1/x", "http://u") =
      [("10.1/x", "http://u"), ("10.1/x", "http://u")] ∧
    writecsvRow [("10.1/x", "http://u")] ("10.1/x", "http://u") ≠
      [("10.1/x", "http://u")] := by
  decide

/-- **C6, amended.**  Re-inserting an already-recorded `(key, value)` pair
via `writecsvRow` appends a duplicate physical row, but the set-valued
mapping obtained by reading the registry back through `csvTodict` is
unchanged at every key — a no-op at the mapping level only. -/
theorem writecsvRow_duplicate_mapping_noop (rows : List (String × String))
    (row : String × String) (hmem : row ∈ rows) (k : String) :
    csvTodict (writecsvRow rows row) k = csvTodict rows k := by
  rw [writecsvRow, csvTodict_append_single]
  simp only [addToDict]
  by_cases hk : k = row.1
  · subst hk
    rw [if_pos rfl]
    exact Finset.union_eq_left.mpr
      (Finset.singleton_subset_iff.mpr (mem_csvTodict_self rows row hmem))
  · rw [if_neg hk]

/-- **C6, amended, witness.**  Re-inserting the one recorded pair leaves
the mapping at its key unchanged. -/
theorem writecsvRow_duplicate_mapping_noop_witness :
    csvTodict (writecsvRow [("10.1/x", "http://u")] ("10.1/x", "http://u"))
      "10.1/x" = csvTodict [("10.1/x", "http://u")] "10.1/x" :=
  writecsvRow_duplicate_mapping_noop [("10.1/x", "http://u")]
    ("10.1/x", "http://u") (by decide) "10.1/x"

/-- **C7, counterexample.**  The claim states that a second run with no
new remote data adds no new rows to any registry file.  Refuted on the
not-found registry: with both requested DOIs already recorded as not found
(a two-row registry, so the `csvTolist` single-row collapse does not
fire), the first run appends the whole not-found set to the registry again
(four rows), and the second run appends it again (six rows) — the second
run adds new rows even though no remote data changed and no query is
made. -/
theorem second_run_grows_notfound_registry :
    grabViaCrossrefResolve cxQuery 3
        ⟨["10.1/x", "10.1/y"], [], ["10.1/x", "10.1/y"]⟩ =
      some ⟨["10.1/x", "10.1/y"], [],
        ["10.1/x", "10.1/y", "10.1/x", "10.1/y"]⟩ ∧
    grabViaCrossrefResolve cxQuery 3
        ⟨["10.1/x", "10.1/y"], [],
          ["10.1/x", "10.1/y", "10.1/x", "10.1/y"]⟩ =
      some ⟨["10.1/x", "10.1/y"], [],
        ["10.1/x", "10.1/y", "10.1/x", "10.1/y", "10.1/x", "10.1/y"]⟩ ∧
    (["10.1/x", "10.1/y", "10.1/x", "10.1/y", "10.1/x", "10.1/y"] :
        List String) ≠
      ["10.1/x", "10.1/y", "10.1/x", "10.1/y"] := by
  decide

/-- **C7, amended.**  When every requested DOI is already recorded and the
not-found registry has zero or at least two nonempty rows (so the
`csvTolist` single-row collapse does not fire), a further run of the
resolution phase issues no metadata query (its outcome is independent of
the query oracle) and adds no new *entry* to the not-found registry at the
set level — but it does append duplicate rows (the physical file grows, as
the counterexample shows). -/
theorem second_run_no_queries_no_new_entries
    (query query' : Nat → String → QueryResult) (fuel : Nat) (st : CrState)
    (hdone : computeRemaining st.doisCsv.dedup (csvTolistSet st.notFoundRows)
      st.articles = [])
    (hnorm : normalizeSet (csvTolistSet st.notFoundRows) =
      csvTolistSet st.notFoundRows)
    (hone : (st.notFoundRows.filter (fun r => !r.isEmpty)).length ≠ 1) :
    grabViaCrossrefResolve query (fuel + 2) st =
      grabViaCrossrefResolve query' (fuel + 2) st ∧
    ∀ res, grabViaCrossrefResolve query (fuel + 2) st = some res →
      res.notFoundRows.toFinset = st.notFoundRows.toFinset := by
  have h1 := grabResolve_when_all_recorded query fuel st hdone hnorm
  have h2 := grabResolve_when_all_recorded query' fuel st hdone hnorm
  refine ⟨h1.trans h2.symm, ?_⟩
  intro res hres
  rw [h1] at hres
  cases hres
  show (st.notFoundRows ++ csvTolistSet st.notFoundRows).toFinset =
    st.notFoundRows.toFinset
  rw [List.toFinset_append]
  exact Finset.union_eq_left.mpr
    (csvTolistSet_toFinset_subset st.notFoundRows hone)

/-- **C7, amended, witness.**  With both DOIs already recorded as not found
in a two-row registry, two different oracles produce the same run and the
not-found set is preserved. -/
theorem second_run_no_queries_no_new_entries_witness :
    grabViaCrossrefResolve cxQuery 2
        ⟨["10.1/x", "10.1/y"], [], ["10.1/x", "10.1/y"]⟩ =
      grabViaCrossrefResolve (fun _ => nfQuery) 2
        ⟨["10.1/x", "10.1/y"], [], ["10.1/x", "10.1/y"]⟩ ∧
    ∀ res,
      grabViaCrossrefResolve cxQuery 2
          ⟨["10.1/x", "10.1/y"], [], ["10.1/x", "10.1/y"]⟩ =
        some res →
      res.notFoundRows.toFinset =
        (["10.1/x", "10.1/y"] : List String).toFinset :=
  second_run_no_queries_no_new_entries cxQuery (fun _ => nfQuery) 0
    ⟨["10.1/x", "10.1/y"], [], ["10.1/x", "10.1/y"]⟩
    (by decide) (by decide) (by decide)

/-- **C8.**  For a DOI whose `cr.works` call raises one of the caught
transport errors: if `str(e)` contains `'Not Found'`, the DOI is added to
the not-found set and — once normalized, as every DOI read from `dois.csv`
is — it is excluded from every subsequently recomputed remaining set, so it
is never retried; otherwise the error propagates (`raise e`) with the DOI
recorded nowhere, so a pending DOI stays inside the recomputed remaining
set rather than being recorded as not found. -/
theorem crossref_notfound_vs_transient
    (query : String → QueryResult) (articles : List Article)
    (notFound : List String) (d : String) (rest : List String) (msg : String)
    (hq : query d = .caught msg)
    (hex : extractDOI d = d) (hlo : pyLower d = d) :
    (pyIn "Not Found" msg = true →
      processPass query articles notFound (d :: rest) =
        processPass query articles (pyInsert d notFound) rest ∧
      ∀ (dois : List String) (articles2 : List Article),
        d ∉ computeRemaining dois (pyInsert d notFound) articles2) ∧
    (pyIn "Not Found" msg = false →
      processPass query articles notFound (d :: rest) = none ∧
      ∀ (dois : List String) (articles2 : List Article),
        d ∈ dois → d ∉ normalizeSet notFound → d ∉ collectedOf articles2 →
        d ∈ computeRemaining dois notFound articles2) := by
  constructor
  · intro hin
    constructor
    · simp [processPass, hq, hin]
    · intro dois articles2 hmem
      rw [computeRemaining, mem_pySetDiff] at hmem
      rcases hmem with ⟨hmem1, _⟩
      rw [mem_pySetDiff] at hmem1
      apply hmem1.2
      rw [normalizeSet, mem_pySetImage]
      exact ⟨d, (mem_pyInsert d d notFound).mpr (Or.inl rfl), by rw [hex, hlo]⟩
  · intro hin
    constructor
    · simp [processPass, hq, hin]
    · intro dois articles2 hdois hnf hcol
      rw [computeRemaining, mem_pySetDiff]
      refine ⟨?_, hcol⟩
      rw [mem_pySetDiff]
      refine ⟨?_, hnf⟩
      rw [mem_pySetImage]
      exact ⟨d, hdois, hlo⟩

/-- **C8, witness.**  Under `nfQuery`, the not-found DOI `"10.1/nf"` is
added to the not-found set and excluded from the recomputed remaining set,
while the transiently failing DOI `"10.1/other"` aborts the pass and stays
inside the recomputed remaining set. -/
theorem crossref_notfound_vs_transient_witness :
    (processPass nfQuery [] [] ["10.1/nf"] =
        processPass nfQuery [] (pyInsert "10.1/nf" []) [] ∧
      "10.1/nf" ∉ computeRemaining ["10.1/nf"] (pyInsert "10.1/nf" []) []) ∧
    (processPass nfQuery [] [] ["10.1/other"] = none ∧
      "10.1/other" ∈ computeRemaining ["10.1/other"] [] []) := by
  have ha := crossref_notfound_vs_transient nfQuery [] [] "10.1/nf" []
    "HTTP Error 404: Not Found" (by decide) (by decide) (by decide)
  have hb := crossref_notfound_vs_transient nfQuery [] [] "10.1/other" []
    "connection timed out" (by decide) (by decide) (by decide)
  refine ⟨⟨(ha.1 (by decide)).1, (ha.1 (by decide)).2 ["10.1/nf"] []⟩,
    (hb.2 (by decide)).1,
    (hb.2 (by decide)).2 ["10.1/other"] [] (by decide) (by decide) (by decide)⟩

end PubMedGrabber
